import Mathlib

/-!
Shallow embedding of `src/src/utils/opt_in_checker.py` (the telemetry
opt-in consent checker) and proofs about it.

Modelling conventions:
* Python machine state (filesystem, process table, terminal) is captured by
  an explicit `Env` record; every `os.*` probe the code performs is a field.
* Fallible Python code (functions that can raise) is embedded as
  `Except String _`; an `Except.error` models an uncaught Python exception.
* `time.time()` readings are modelled by per-attempt durations
  `dur : Nat → Rat` (attempt `k+1` takes `dur (k+1)` seconds); the running
  total `elapsed dur k` is the value of `time.time() - start_time` observed
  right after attempt `k`.
* File content is a `String`; `None` models an absent file.  Logging is
  modelled, for `check`, by a Boolean flag recording whether the
  "Incorrect format of the file with opt-in status." warning was emitted.
-/

namespace OptInChecker

/-- Python `ISIPCheckResult` enum. -/
inductive ISIPCheckResult where
  | DECLINED
  | ACCEPTED
  | NO_FILE
deriving DecidableEq, Repr

/-- Python `DialogResult` enum.  The source reuses `TIMEOUT_REACHED` as the
marker for an unrecognized answer inside a single attempt. -/
inductive DialogResult where
  | DECLINED
  | ACCEPTED
  | TIMEOUT_REACHED
deriving DecidableEq, Repr

/-- Result of Python `platform.system()`: `Windows`, `Linux`, `Darwin`, or
anything else (`Other`). -/
inductive Platform where
  | Windows
  | Linux
  | Darwin
  | Other
deriving DecidableEq, Repr

/-- `OptInChecker.dialog_timeout = 50` seconds. -/
def dialog_timeout : ℚ := 50

/-- Python whitespace, as recognized by `str.strip()`. -/
def isPySpace (ch : Char) : Bool :=
  ch == ' ' || ch == '\t' || ch == '\n' || ch == '\r' || ch == '\x0b' || ch == '\x0c'

/-- Python `str.strip()`: drop leading and trailing whitespace. -/
def pyStrip (c : String) : String :=
  String.mk (((c.data.dropWhile isPySpace).reverse.dropWhile isPySpace).reverse)

/-- Python `str.lower()` (character-wise lowering; the answers compared
against are ASCII). -/
def pyLower (c : String) : String :=
  String.mk (c.data.map Char.toLower)

/-- Python `OptInChecker._ask_opt_in(question, timeout)`.  The printed
question and the blocking `input_with_timeout` call are external
collaborators; the line the primitive returned is `raw` (empty string on
primitive-reported timeout).  The source lower-cases, strips, and matches
`"n"`/`"no"` then `"y"`/`"yes"`; everything else is `TIMEOUT_REACHED`. -/
def ask_opt_in (_timeout : ℚ) (raw : String) : DialogResult :=
  let answer := pyStrip (pyLower raw)
  if answer = "n" ∨ answer = "no" then DialogResult.DECLINED
  else if answer = "y" ∨ answer = "yes" then DialogResult.ACCEPTED
  else DialogResult.TIMEOUT_REACHED

/-- Wall-clock time elapsed since `start_time` as observed by the
`time.time()` reading right after attempt `k`; `dur (i+1)` is the duration
of attempt `i+1`. -/
def elapsed (dur : ℕ → ℚ) : ℕ → ℚ
  | 0 => 0
  | k + 1 => elapsed dur k + dur (k + 1)

/-- The timeout argument the source passes to `_ask_opt_in` at attempt `k`:
`dialog_timeout` for the first attempt, and the remaining budget
`dialog_timeout - time_passed` for every re-prompt (see
`opt_in_dialog`: `self.dialog_timeout - time_passed`). -/
def attempt_timeout (dur : ℕ → ℚ) (k : ℕ) : ℚ :=
  if k ≤ 1 then dialog_timeout else dialog_timeout - elapsed dur (k - 1)

/-- Python `OptInChecker.opt_in_dialog`, unrolled as a fuel-indexed
recursion.  State `k` = number of completed attempts; one step performs
attempt `k+1` with the timeout the source computes (`dialog_timeout` when
`k = 0`, otherwise `dialog_timeout - time_passed`), then re-checks the
`while time_passed < self.dialog_timeout and answer == TIMEOUT_REACHED`
condition with the fresh clock reading `elapsed dur (k+1)`.  `none` means
the fuel ran out before the loop finished. -/
def opt_in_dialog_go (dur : ℕ → ℚ) (inputs : ℕ → String) :
    ℕ → ℕ → Option (DialogResult × ℕ)
  | 0, _ => none
  | fuel + 1, k =>
    if elapsed dur (k + 1) < dialog_timeout ∧
        ask_opt_in (if k = 0 then dialog_timeout else dialog_timeout - elapsed dur k)
          (inputs (k + 1)) = DialogResult.TIMEOUT_REACHED then
      opt_in_dialog_go dur inputs fuel (k + 1)
    else
      some (ask_opt_in (if k = 0 then dialog_timeout else dialog_timeout - elapsed dur k)
          (inputs (k + 1)), k + 1)

/-- Python `OptInChecker.opt_in_dialog`: run the loop from zero completed
attempts.  On `some (r, n)` the dialog returned result `r` after `n`
attempts. -/
def opt_in_dialog (dur : ℕ → ℚ) (inputs : ℕ → String) (fuel : ℕ) :
    Option (DialogResult × ℕ) :=
  opt_in_dialog_go dur inputs fuel 0

/-- One machine state: the outcome of every probe of the filesystem,
process table, and terminal that `opt_in_checker.py` performs. -/
structure Env where
  /-- `platform.system()` result. -/
  platform : Platform
  /-- expansion of `$LOCALAPPDATA` (Windows branch). -/
  localappdata : String
  /-- `Path.home()` (Linux/Darwin branch). -/
  home : String
  /-- `os.path.isdir(isip_base_dir)`. -/
  base_dir_is_dir : Bool
  /-- `os.path.exists(base_dir)` inside `create_or_check_isip_dir`. -/
  base_dir_exists : Bool
  /-- `os.access(base_dir, os.W_OK)`. -/
  base_w_access : Bool
  /-- `os.path.exists(isip_dir)` for the vendor subdirectory. -/
  isip_dir_exists : Bool
  /-- `os.path.isdir(isip_dir)`. -/
  isip_dir_is_dir : Bool
  /-- whether `os.remove(isip_dir)` raises. -/
  remove_raises : Bool
  /-- whether `os.mkdir(isip_dir)` raises. -/
  mkdir_raises : Bool
  /-- whether the directory actually exists after a non-raising `os.mkdir`. -/
  mkdir_effective : Bool
  /-- `os.access(isip_dir, os.W_OK)`. -/
  isip_w_access : Bool
  /-- content of the ISIP file, `none` if the file does not exist. -/
  file : Option String
  /-- `os.access(isip_file, os.W_OK)`. -/
  file_w_access : Bool
  /-- `os.access(isip_file, os.R_OK)`. -/
  file_r_access : Bool
  /-- whether `open(isip_file, 'w')`/`file.write` raises. -/
  open_write_raises : Bool
  /-- whether `open(isip_file, 'r')`/`file.readline` raises. -/
  open_read_raises : Bool
  /-- `os.getpid()`. -/
  pid : ℕ
  /-- `os.getpgid(0)`. -/
  pgid : ℕ
  /-- `os.getsid(os.getppid())`. -/
  ppid_sid : ℕ
  /-- `os.getsid(0)`. -/
  sid : ℕ
  /-- whether any of the pid/pgid/sid queries raises. -/
  proc_query_raises : Bool
  /-- `stdin.isatty()`. -/
  stdin_isatty : Bool
  /-- whether `get_ipython().__class__.__name__ == 'ZMQInteractiveShell'`
  (False when `get_ipython` is undefined, the `NameError` branch). -/
  in_notebook : Bool
deriving DecidableEq, Repr

/-- Python `OptInChecker.isip_file_base_dir`: platform switch, then an
`os.path.isdir` check; raises `Exception('Failed to find location of the
ISIP file.')` on an unrecognized platform or a missing base directory. -/
def isip_file_base_dir (e : Env) : Except String String :=
  let dir_to_check : Option String :=
    if e.platform = Platform.Windows then some e.localappdata
    else if e.platform = Platform.Linux ∨ e.platform = Platform.Darwin then some e.home
    else none
  match dir_to_check with
  | none => Except.error "Failed to find location of the ISIP file."
  | some isip_base_dir =>
    if ¬ e.base_dir_is_dir then Except.error "Failed to find location of the ISIP file."
    else Except.ok isip_base_dir

/-- Python `OptInChecker.isip_file_subdirectory`. -/
def isip_file_subdirectory (e : Env) : Except String String :=
  if e.platform = Platform.Windows then Except.ok "Intel Corporation"
  else if e.platform = Platform.Linux ∨ e.platform = Platform.Darwin then Except.ok "intel"
  else Except.error "Failed to find location of the ISIP file."

/-- Python `OptInChecker.isip_file`: `os.path.join(base, sub,
"openvino_telemetry")` (separator choice is irrelevant to every claim). -/
def isip_file (e : Env) : Except String String :=
  match isip_file_base_dir e with
  | Except.error msg => Except.error msg
  | Except.ok base =>
    match isip_file_subdirectory e with
    | Except.error msg => Except.error msg
    | Except.ok sub => Except.ok (base ++ "/" ++ sub ++ "/openvino_telemetry")

/-- `file.readline()` on content `c`: the first line.  (The real
`readline` keeps the trailing newline; since the caller always strips the
result, taking characters up to the first newline is equivalent.) -/
def readline (c : String) : String :=
  String.mk (c.data.takeWhile (fun ch => ch != '\n'))

/-- Python `OptInChecker.get_info_from_isip`: `(False, {})` when the file
is not readable or reading raises (the empty-dict sentinel is modelled as
`none`); otherwise `(True, first line stripped)`. -/
def get_info_from_isip (e : Env) : Except String (Bool × Option String) :=
  match isip_file e with
  | Except.error msg => Except.error msg
  | Except.ok _ =>
    if ¬ e.file_r_access then Except.ok (false, none)
    else
      match e.file with
      | none => Except.ok (false, none)
      | some content =>
        if e.open_read_raises then Except.ok (false, none)
        else Except.ok (true, some (pyStrip (readline content)))

/-- Python `OptInChecker.isip_is_empty`: `os.stat(self.isip_file()).st_size
== 0`.  `os.stat` raises `FileNotFoundError` when the file does not exist;
nothing in the source catches it. -/
def isip_is_empty (e : Env) : Except String Bool :=
  match isip_file e with
  | Except.error msg => Except.error msg
  | Except.ok _ =>
    match e.file with
    | none => Except.error "No such file or directory"
    | some content => Except.ok (content.length == 0)

/-- Python `OptInChecker._check_input_is_terminal`: `stdin.isatty()`. -/
def check_input_is_terminal (e : Env) : Bool :=
  e.stdin_isatty

/-- Python `OptInChecker._check_run_in_notebook`. -/
def check_run_in_notebook (e : Env) : Bool :=
  e.in_notebook

/-- Python `OptInChecker._check_main_process`: always True on Windows;
otherwise False if any query raises, if `os.getpid() != os.getpgid(0)`, or
if `os.getsid(os.getppid()) != os.getsid(0)`. -/
def check_main_process (e : Env) : Bool :=
  if e.platform = Platform.Windows then true
  else if e.proc_query_raises then false
  else if e.pid != e.pgid then false
  else if e.ppid_sid != e.sid then false
  else true

/-- The `os.remove` step of `create_or_check_isip_dir`: if the ISIP path
exists and is not a directory the source tries to remove it; `none` models
the warned `return False` on a raising `os.remove`. -/
def isip_dir_after_remove (e : Env) : Option Env :=
  if e.isip_dir_exists ∧ ¬ e.isip_dir_is_dir then
    (if e.remove_raises then none
     else some { e with isip_dir_exists := false, isip_dir_is_dir := false })
  else some e

/-- The `os.mkdir` step of `create_or_check_isip_dir`: create the
directory when absent; `none` models `return False` on a raising `os.mkdir`
or on the post-creation existence check failing. -/
def isip_dir_after_mkdir (e : Env) : Option Env :=
  if ¬ e.isip_dir_exists then
    (if e.mkdir_raises then none
     else if e.mkdir_effective then
       some { e with isip_dir_exists := true, isip_dir_is_dir := true }
     else none)
  else some e

/-- Python `OptInChecker.create_or_check_isip_dir`.  Note that the very
first statement calls `isip_file_base_dir` outside any `try`, so a
location-resolution exception propagates. -/
def create_or_check_isip_dir (e : Env) : Except String (Bool × Env) :=
  match isip_file_base_dir e with
  | Except.error msg => Except.error msg
  | Except.ok _base =>
    if ¬ e.base_dir_exists ∨ ¬ e.base_dir_is_dir then Except.ok (false, e)
    else if ¬ e.base_w_access then Except.ok (false, e)
    else
      match isip_file_base_dir e, isip_file_subdirectory e with
      | Except.error msg, _ => Except.error msg
      | Except.ok _, Except.error msg => Except.error msg
      | Except.ok _, Except.ok _ =>
        match isip_dir_after_remove e with
        | none => Except.ok (false, e)
        | some e1 =>
          match isip_dir_after_mkdir e1 with
          | none => Except.ok (false, e1)
          | some e2 =>
            if ¬ e2.isip_w_access then Except.ok (false, e2)
            else Except.ok (true, e2)

/-- Python `OptInChecker.create_new_isip_file`: directory step first
(outside any `try`, so its location exception propagates), then
`open(self.isip_file(), 'w').close()` inside a `try` whose failures become
`return False`. -/
def create_new_isip_file (e : Env) : Except String (Bool × Env) :=
  match create_or_check_isip_dir e with
  | Except.error msg => Except.error msg
  | Except.ok (false, e1) => Except.ok (false, e1)
  | Except.ok (true, e1) =>
    match isip_file e1 with
    | Except.error _ => Except.ok (false, e1)
    | Except.ok _ =>
      if e1.open_write_raises then Except.ok (false, e1)
      else Except.ok (true, { e1 with file := some "" })

/-- Python `OptInChecker.update_result`: create the file when absent
(failing fast on a `False` from `create_new_isip_file`), check
`os.access(..., W_OK)`, then truncate-and-write a single byte inside a
`try` whose failures become `return False`. -/
def update_result (e : Env) (result : ISIPCheckResult) : Except String (Bool × Env) :=
  match isip_file e with
  | Except.error msg => Except.error msg
  | Except.ok _ =>
    match (if e.file.isNone then create_new_isip_file e else Except.ok (true, e)) with
    | Except.error msg => Except.error msg
    | Except.ok (false, e1) => Except.ok (false, e1)
    | Except.ok (true, e1) =>
      if ¬ e1.file_w_access then Except.ok (false, e1)
      else
        match isip_file e1 with
        | Except.error _ => Except.ok (false, e1)
        | Except.ok _ =>
          if e1.open_write_raises then Except.ok (false, e1)
          else Except.ok (true, { e1 with
              file := some (if result = ISIPCheckResult.ACCEPTED then "1" else "0") })

/-- Python `OptInChecker.check`.  The second component of the result
records whether the "Incorrect format of the file with opt-in status."
warning was logged. -/
def check (e : Env) : Except String (ISIPCheckResult × Bool) :=
  match isip_file e with
  | Except.error msg => Except.error msg
  | Except.ok _ =>
    if e.file.isNone then
      (if ¬ check_main_process e then Except.ok (ISIPCheckResult.DECLINED, false)
       else if ¬ check_input_is_terminal e ∨ check_run_in_notebook e then
         Except.ok (ISIPCheckResult.DECLINED, false)
       else Except.ok (ISIPCheckResult.NO_FILE, false))
    else
      match isip_is_empty e with
      | Except.error msg => Except.error msg
      | Except.ok emp =>
        if ¬ emp then
          match get_info_from_isip e with
          | Except.error msg => Except.error msg
          | Except.ok info =>
            if info.2 = some "1" then Except.ok (ISIPCheckResult.ACCEPTED, false)
            else if info.2 = some "0" then Except.ok (ISIPCheckResult.DECLINED, false)
            else Except.ok (ISIPCheckResult.DECLINED, true)
        else Except.ok (ISIPCheckResult.DECLINED, true)

/-- The storage location resolves: recognized platform and existing base
directory.  Exactly the condition under which `isip_file_base_dir` does
not raise. -/
def Resolvable (e : Env) : Prop :=
  e.platform ≠ Platform.Other ∧ e.base_dir_is_dir = true

/-- Two states agree on every probe result relevant to path resolution and
to reading/writing the ISIP file (everything the store's operations can
not change). -/
def SameConfig (a b : Env) : Prop :=
  a.platform = b.platform ∧ a.base_dir_is_dir = b.base_dir_is_dir ∧
  a.file_w_access = b.file_w_access ∧ a.file_r_access = b.file_r_access ∧
  a.open_write_raises = b.open_write_raises ∧ a.open_read_raises = b.open_read_raises

/-- A fully healthy Linux interactive-session state with a stored "1". -/
def defaultEnv : Env where
  platform := Platform.Linux
  localappdata := "C:/Users/u/AppData/Local"
  home := "/home/u"
  base_dir_is_dir := true
  base_dir_exists := true
  base_w_access := true
  isip_dir_exists := true
  isip_dir_is_dir := true
  remove_raises := false
  mkdir_raises := false
  mkdir_effective := true
  isip_w_access := true
  file := some "1"
  file_w_access := true
  file_r_access := true
  open_write_raises := false
  open_read_raises := false
  pid := 100
  pgid := 100
  ppid_sid := 7
  sid := 7
  proc_query_raises := false
  stdin_isatty := true
  in_notebook := false

/-- State on an unrecognized platform. -/
def envOther : Env := { defaultEnv with platform := Platform.Other }

/-- Healthy state in which the ISIP file does not exist. -/
def envNoFile : Env := { defaultEnv with file := none }

/-! ### Helper lemmas: path resolution -/

theorem resolvable_base (e : Env) (h : Resolvable e) :
    ∃ b, isip_file_base_dir e = Except.ok b := by
  obtain ⟨hp, hd⟩ := h
  cases hplat : e.platform <;> simp_all [isip_file_base_dir, hplat]

theorem resolvable_sub (e : Env) (h : Resolvable e) :
    ∃ s, isip_file_subdirectory e = Except.ok s := by
  obtain ⟨hp, hd⟩ := h
  cases hplat : e.platform <;> simp_all [isip_file_subdirectory, hplat]

theorem resolvable_isip_file (e : Env) (h : Resolvable e) :
    ∃ p, isip_file e = Except.ok p := by
  obtain ⟨b, hb⟩ := resolvable_base e h
  obtain ⟨s, hs⟩ := resolvable_sub e h
  refine ⟨b ++ "/" ++ s ++ "/openvino_telemetry", ?_⟩
  simp [isip_file, hb, hs]

theorem not_resolvable_base (e : Env) (h : ¬ Resolvable e) :
    isip_file_base_dir e = Except.error "Failed to find location of the ISIP file." := by
  unfold Resolvable at h
  push_neg at h
  by_cases hp : e.platform = Platform.Other
  · simp [isip_file_base_dir, hp]
  · have hd := h hp
    cases hplat : e.platform <;> simp_all [isip_file_base_dir]

theorem not_resolvable_isip_file (e : Env) (h : ¬ Resolvable e) :
    isip_file e = Except.error "Failed to find location of the ISIP file." := by
  simp [isip_file, not_resolvable_base e h]

theorem resolvable_of_isip_file_ok (e : Env) (p : String)
    (h : isip_file e = Except.ok p) : Resolvable e := by
  by_contra hn
  rw [not_resolvable_isip_file e hn] at h
  exact Except.noConfusion h

/-! ### Helper lemmas: which probe results each store operation can change -/

theorem sameConfig_refl (e : Env) : SameConfig e e :=
  ⟨rfl, rfl, rfl, rfl, rfl, rfl⟩

theorem sameConfig_trans {a b c : Env} (h1 : SameConfig a b) (h2 : SameConfig b c) :
    SameConfig a c := by
  obtain ⟨x1, x2, x3, x4, x5, x6⟩ := h1
  obtain ⟨y1, y2, y3, y4, y5, y6⟩ := h2
  exact ⟨x1.trans y1, x2.trans y2, x3.trans y3, x4.trans y4, x5.trans y5, x6.trans y6⟩

theorem sameConfig_resolvable {a b : Env} (h : SameConfig a b) :
    Resolvable a ↔ Resolvable b := by
  obtain ⟨h1, h2, -, -, -, -⟩ := h
  unfold Resolvable
  rw [h1, h2]

theorem isip_dir_after_remove_same (e e1 : Env)
    (h : isip_dir_after_remove e = some e1) : SameConfig e e1 ∧ e1.file = e.file := by
  unfold isip_dir_after_remove at h
  split_ifs at h with h1 h2
  · cases h
    exact ⟨⟨rfl, rfl, rfl, rfl, rfl, rfl⟩, rfl⟩
  · cases h
    exact ⟨sameConfig_refl e, rfl⟩

theorem isip_dir_after_mkdir_same (e e1 : Env)
    (h : isip_dir_after_mkdir e = some e1) : SameConfig e e1 ∧ e1.file = e.file := by
  unfold isip_dir_after_mkdir at h
  split_ifs at h with h1 h2 h3
  · cases h
    exact ⟨⟨rfl, rfl, rfl, rfl, rfl, rfl⟩, rfl⟩
  · cases h
    exact ⟨sameConfig_refl e, rfl⟩

theorem create_or_check_spec (e : Env) (h : Resolvable e) :
    ∃ b e1, create_or_check_isip_dir e = Except.ok (b, e1) ∧ SameConfig e e1 ∧
      e1.file = e.file := by
  obtain ⟨bd, hbd⟩ := resolvable_base e h
  obtain ⟨sd, hsd⟩ := resolvable_sub e h
  unfold create_or_check_isip_dir
  simp only [hbd, hsd]
  cases hde : e.base_dir_exists with
  | false => exact ⟨false, e, by simp [hde], sameConfig_refl e, rfl⟩
  | true =>
    cases hdd : e.base_dir_is_dir with
    | false => exact ⟨false, e, by simp [hde, hdd], sameConfig_refl e, rfl⟩
    | true =>
      cases hwa : e.base_w_access with
      | false => exact ⟨false, e, by simp [hde, hdd, hwa], sameConfig_refl e, rfl⟩
      | true =>
        cases hrem : isip_dir_after_remove e with
        | none =>
          exact ⟨false, e, by simp [hde, hdd, hwa, hrem], sameConfig_refl e, rfl⟩
        | some e1 =>
          obtain ⟨hc1, hf1⟩ := isip_dir_after_remove_same e e1 hrem
          cases hmk : isip_dir_after_mkdir e1 with
          | none => exact ⟨false, e1, by simp [hde, hdd, hwa, hrem, hmk], hc1, hf1⟩
          | some e2 =>
            obtain ⟨hc2, hf2⟩ := isip_dir_after_mkdir_same e1 e2 hmk
            cases hw2 : e2.isip_w_access with
            | false =>
              exact ⟨false, e2, by simp [hde, hdd, hwa, hrem, hmk, hw2],
                sameConfig_trans hc1 hc2, hf2.trans hf1⟩
            | true =>
              exact ⟨true, e2, by simp [hde, hdd, hwa, hrem, hmk, hw2],
                sameConfig_trans hc1 hc2, hf2.trans hf1⟩

theorem create_new_spec (e : Env) (h : Resolvable e) :
    ∃ b e1, create_new_isip_file e = Except.ok (b, e1) ∧ SameConfig e e1 ∧
      (b = true → e1.file = some "") := by
  obtain ⟨b0, e1, hc, hsc, hf⟩ := create_or_check_spec e h
  cases b0 with
  | false => exact ⟨false, e1, by simp [create_new_isip_file, hc], hsc, by simp⟩
  | true =>
    obtain ⟨p, hp⟩ := resolvable_isip_file e1 ((sameConfig_resolvable hsc).mp h)
    cases hw : e1.open_write_raises with
    | true =>
      exact ⟨false, e1, by simp [create_new_isip_file, hc, hp, hw], hsc, by simp⟩
    | false =>
      exact ⟨true, { e1 with file := some "" },
        by simp [create_new_isip_file, hc, hp, hw],
        sameConfig_trans hsc ⟨rfl, rfl, rfl, rfl, rfl, rfl⟩, fun _ => rfl⟩

theorem update_result_spec (e : Env) (r : ISIPCheckResult) (h : Resolvable e) :
    ∃ b e', update_result e r = Except.ok (b, e') ∧ SameConfig e e' ∧
      (b = true ↔
        ((e.file.isSome = true ∨ ∃ e1, create_new_isip_file e = Except.ok (true, e1)) ∧
          e.file_w_access = true ∧ e.open_write_raises = false)) ∧
      (b = true → e'.file = some (if r = ISIPCheckResult.ACCEPTED then "1" else "0")) := by
  obtain ⟨p, hp⟩ := resolvable_isip_file e h
  cases hfl : e.file with
  | none =>
    obtain ⟨b0, e1, hc, hsc, hcf⟩ := create_new_spec e h
    cases b0 with
    | false =>
      refine ⟨false, e1, by simp [update_result, hp, hfl, hc], hsc,
        iff_of_false (by simp) ?_, by simp⟩
      rintro ⟨hab, -, -⟩
      rcases hab with hab | ⟨e1', he1'⟩
      · simp at hab
      · rw [hc] at he1'
        simp at he1'
    | true =>
      have hres1 : Resolvable e1 := (sameConfig_resolvable hsc).mp h
      obtain ⟨p1, hp1⟩ := resolvable_isip_file e1 hres1
      cases hwa : e1.file_w_access with
      | false =>
        refine ⟨false, e1, by simp [update_result, hp, hfl, hc, hwa], hsc,
          iff_of_false (by simp) ?_, by simp⟩
        rintro ⟨-, hwa', -⟩
        rw [hsc.2.2.1] at hwa'
        rw [hwa'] at hwa
        exact Bool.noConfusion hwa
      | true =>
        cases hwr : e1.open_write_raises with
        | true =>
          refine ⟨false, e1, by simp [update_result, hp, hfl, hc, hwa, hp1, hwr],
            hsc, iff_of_false (by simp) ?_, by simp⟩
          rintro ⟨-, -, hwr'⟩
          rw [hsc.2.2.2.2.1] at hwr'
          rw [hwr'] at hwr
          exact Bool.noConfusion hwr
        | false =>
          refine ⟨true,
            { e1 with file := some (if r = ISIPCheckResult.ACCEPTED then "1" else "0") },
            by simp [update_result, hp, hfl, hc, hwa, hp1, hwr],
            sameConfig_trans hsc ⟨rfl, rfl, rfl, rfl, rfl, rfl⟩, ?_, fun _ => rfl⟩
          refine iff_of_true rfl ⟨Or.inr ⟨e1, hc⟩, ?_, ?_⟩
          · rw [hsc.2.2.1]
            exact hwa
          · rw [hsc.2.2.2.2.1]
            exact hwr
  | some c =>
    cases hwa : e.file_w_access with
    | false =>
      exact ⟨false, e, by simp [update_result, hp, hfl, hwa], sameConfig_refl e,
        iff_of_false (by simp) (by simp), by simp⟩
    | true =>
      cases hwr : e.open_write_raises with
      | true =>
        exact ⟨false, e, by simp [update_result, hp, hfl, hwa, hwr],
          sameConfig_refl e, iff_of_false (by simp) (by simp), by simp⟩
      | false =>
        refine ⟨true,
          { e with file := some (if r = ISIPCheckResult.ACCEPTED then "1" else "0") },
          by simp [update_result, hp, hfl, hwa, hwr],
          ⟨rfl, rfl, rfl, rfl, rfl, rfl⟩, ?_, fun _ => rfl⟩
        exact iff_of_true rfl ⟨Or.inl rfl, rfl, rfl⟩

/-! ### Helper lemmas: reading the ISIP file -/

theorem isip_is_empty_some (e : Env) (c p : String)
    (hp : isip_file e = Except.ok p) (hf : e.file = some c) :
    isip_is_empty e = Except.ok (c.length == 0) := by
  simp [isip_is_empty, hp, hf]

theorem get_info_readable (e : Env) (c p : String)
    (hp : isip_file e = Except.ok p) (hf : e.file = some c)
    (hr : e.file_r_access = true) (hnr : e.open_read_raises = false) :
    get_info_from_isip e = Except.ok (true, some (pyStrip (readline c))) := by
  simp [get_info_from_isip, hp, hf, hr, hnr]

theorem get_info_unreadable (e : Env) (p : String)
    (hp : isip_file e = Except.ok p)
    (hfail : e.file_r_access = false ∨ e.open_read_raises = true) :
    get_info_from_isip e = Except.ok (false, none) := by
  rcases hfail with hr | hnr
  · simp [get_info_from_isip, hp, hr]
  · cases hr : e.file_r_access with
    | false => simp [get_info_from_isip, hp, hr]
    | true =>
      cases hf : e.file with
      | none => simp [get_info_from_isip, hp, hr, hf]
      | some c => simp [get_info_from_isip, hp, hr, hf, hnr]

theorem string_eq_empty_of_length {c : String} (h : c.length = 0) : c = "" := by
  cases c with
  | mk data =>
    simp [String.length] at h
    simp [h]

theorem strip_readline_of_length_zero {c : String} (h : c.length = 0) :
    pyStrip (readline c) = "" := by
  rw [string_eq_empty_of_length h]
  rfl

/-! ### Helper lemmas: the dialog loop -/

theorem elapsed_zero (dur : ℕ → ℚ) : elapsed dur 0 = 0 := rfl

theorem elapsed_succ (dur : ℕ → ℚ) (k : ℕ) :
    elapsed dur (k + 1) = elapsed dur k + dur (k + 1) := rfl

theorem dialog_timeout_pos : 0 < dialog_timeout := by norm_num [dialog_timeout]

/-- Core invariant proof for `opt_in_dialog_go`: if every attempt takes at
least `δ > 0` seconds and at most its passed timeout (clamped at zero)
plus the blocking granularity `g`, then from a state with enough fuel and
the loop condition still live, the loop returns: the final clock reading
is at most `dialog_timeout + g` and the result is the classification of
the last attempt's input. -/
theorem opt_in_dialog_go_spec (dur : ℕ → ℚ) (inputs : ℕ → String) (δ g : ℚ)
    (hlo : ∀ k, δ ≤ dur (k + 1))
    (hhi : ∀ k, dur (k + 1) ≤ max (attempt_timeout dur (k + 1)) 0 + g) :
    ∀ (fuel k : ℕ), dialog_timeout ≤ elapsed dur k + δ * (fuel : ℚ) →
      elapsed dur k < dialog_timeout →
      ∃ r n, opt_in_dialog_go dur inputs fuel k = some (r, n) ∧
        elapsed dur n ≤ dialog_timeout + g ∧ r = ask_opt_in 0 (inputs n) := by
  intro fuel
  induction fuel with
  | zero =>
    intro k hbud hlt
    exfalso
    push_cast at hbud
    linarith
  | succ fuel ih =>
    intro k hbud hlt
    by_cases hcond : elapsed dur (k + 1) < dialog_timeout ∧
        ask_opt_in (if k = 0 then dialog_timeout else dialog_timeout - elapsed dur k)
          (inputs (k + 1)) = DialogResult.TIMEOUT_REACHED
    · have hstep : opt_in_dialog_go dur inputs (fuel + 1) k =
          opt_in_dialog_go dur inputs fuel (k + 1) := by
        rw [opt_in_dialog_go, if_pos hcond]
      rw [hstep]
      refine ih (k + 1) ?_ hcond.1
      have hdl : δ ≤ dur (k + 1) := hlo k
      have he : elapsed dur (k + 1) = elapsed dur k + dur (k + 1) := rfl
      push_cast at hbud ⊢
      linarith
    · have hstep : opt_in_dialog_go dur inputs (fuel + 1) k =
          some (ask_opt_in (if k = 0 then dialog_timeout else dialog_timeout - elapsed dur k)
            (inputs (k + 1)), k + 1) := by
        rw [opt_in_dialog_go, if_neg hcond]
      refine ⟨_, k + 1, hstep, ?_, rfl⟩
      have hh := hhi k
      have he : elapsed dur (k + 1) = elapsed dur k + dur (k + 1) := rfl
      rcases Nat.eq_zero_or_pos k with hk | hk
      · subst hk
        have hat : attempt_timeout dur 1 = dialog_timeout := by
          simp [attempt_timeout]
        rw [hat] at hh
        have hmax : max dialog_timeout 0 = dialog_timeout :=
          max_eq_left (le_of_lt dialog_timeout_pos)
        rw [hmax] at hh
        have h0 : elapsed dur 0 = 0 := rfl
        rw [he, h0]
        linarith
      · have hk1 : ¬ (k + 1 ≤ 1) := by omega
        have hat : attempt_timeout dur (k + 1) = dialog_timeout - elapsed dur k := by
          simp [attempt_timeout, hk1]
        rw [hat] at hh
        have hmax : max (dialog_timeout - elapsed dur k) 0 = dialog_timeout - elapsed dur k :=
          max_eq_left (by linarith)
        rw [hmax] at hh
        rw [he]
        linarith

/-! ### Claim theorems -/

/-- C1: the dialog loop terminates for every trace in which each attempt
takes at least a positive granularity `δ` and each attempt respects the
timeout it was passed up to the blocking granularity `g` of the input
primitive; each re-prompt passes the remaining budget
`dialog_timeout - elapsed` (never a fresh full budget); the total
wall-clock time across all attempts stays within `dialog_timeout + g`;
and a trace of nothing but unrecognized input ends in `TIMEOUT_REACHED`. -/
theorem claim_C1_dialog_budget (dur : ℕ → ℚ) (inputs : ℕ → String) (δ g : ℚ) (fuel : ℕ)
    (hδ : 0 < δ) (hg : 0 ≤ g)
    (hlo : ∀ k, δ ≤ dur (k + 1))
    (hhi : ∀ k, dur (k + 1) ≤ max (attempt_timeout dur (k + 1)) 0 + g)
    (hfuel : dialog_timeout ≤ δ * (fuel : ℚ)) :
    (∀ k, 1 ≤ k → attempt_timeout dur (k + 1) = dialog_timeout - elapsed dur k) ∧
    ∃ r n, opt_in_dialog dur inputs fuel = some (r, n) ∧
      elapsed dur n ≤ dialog_timeout + g ∧
      ((∀ k t, ask_opt_in t (inputs k) = DialogResult.TIMEOUT_REACHED) →
        r = DialogResult.TIMEOUT_REACHED) := by
  have hg' : 0 ≤ g := hg
  have hδ' : 0 < δ := hδ
  constructor
  · intro k hk
    have hk1 : ¬ (k + 1 ≤ 1) := by omega
    simp [attempt_timeout, hk1]
  · obtain ⟨r, n, h1, h2, h3⟩ := opt_in_dialog_go_spec dur inputs δ g hlo hhi fuel 0
      (by rw [elapsed_zero]; linarith) (by rw [elapsed_zero]; exact dialog_timeout_pos)
    exact ⟨r, n, h1, h2, fun hgarb => by rw [h3]; exact hgarb n 0⟩

/-- C1 witness: a trace where every attempt takes 10 seconds and always
answers garbage; with granularity 10 and fuel 5 the loop provably
terminates within the budget. -/
theorem claim_C1_witness :
    (∀ k, 1 ≤ k → attempt_timeout (fun _ : ℕ => (10 : ℚ)) (k + 1) =
      dialog_timeout - elapsed (fun _ : ℕ => (10 : ℚ)) k) ∧
    ∃ (r : DialogResult) (n : ℕ),
      opt_in_dialog (fun _ : ℕ => (10 : ℚ)) (fun _ : ℕ => "zzz") 5 = some (r, n) ∧
      elapsed (fun _ : ℕ => (10 : ℚ)) n ≤ dialog_timeout + 10 ∧
      ((∀ (k : ℕ) (t : ℚ), ask_opt_in t "zzz" = DialogResult.TIMEOUT_REACHED) →
        r = DialogResult.TIMEOUT_REACHED) :=
  claim_C1_dialog_budget (fun _ => 10) (fun _ => "zzz") 10 10 5
    (by norm_num) (by norm_num) (fun k : ℕ => by norm_num)
    (fun k : ℕ => by
      have h := le_max_right (attempt_timeout (fun _ => (10 : ℚ)) (k + 1)) 0
      show (10 : ℚ) ≤ max (attempt_timeout (fun _ => (10 : ℚ)) (k + 1)) 0 + 10
      linarith)
    (by push_cast; norm_num [dialog_timeout])

/-- C4: one dialog attempt lower-cases then strips the raw line; the
normalized answer `"y"`/`"yes"` ends in `ACCEPTED`, `"n"`/`"no"` in
`DECLINED`, and anything else (including the empty timeout sentinel) is the
unrecognized marker `TIMEOUT_REACHED`. -/
theorem claim_C4_answer_normalization (t : ℚ) (raw : String) :
    (ask_opt_in t raw = DialogResult.ACCEPTED ↔
      (pyStrip (pyLower raw) = "y" ∨ pyStrip (pyLower raw) = "yes")) ∧
    (ask_opt_in t raw = DialogResult.DECLINED ↔
      (pyStrip (pyLower raw) = "n" ∨ pyStrip (pyLower raw) = "no")) ∧
    (ask_opt_in t raw = DialogResult.TIMEOUT_REACHED ↔
      ¬ (pyStrip (pyLower raw) = "y" ∨ pyStrip (pyLower raw) = "yes" ∨
         pyStrip (pyLower raw) = "n" ∨ pyStrip (pyLower raw) = "no")) := by
  simp only [ask_opt_in]
  by_cases h1 : pyStrip (pyLower raw) = "n" ∨ pyStrip (pyLower raw) = "no"
  · rcases h1 with h | h <;> rw [h] <;> decide
  · by_cases h2 : pyStrip (pyLower raw) = "y" ∨ pyStrip (pyLower raw) = "yes"
    · rcases h2 with h | h <;> rw [h] <;> decide
    · rw [if_neg h1, if_neg h2]
      refine ⟨⟨fun hT => absurd hT (by decide), fun hy => absurd hy h2⟩,
        ⟨fun hT => absurd hT (by decide), fun hn => absurd hn h1⟩, ?_⟩
      constructor
      · intro _
        rintro (hy | hy | hn | hn)
        · exact h2 (Or.inl hy)
        · exact h2 (Or.inr hy)
        · exact h1 (Or.inl hn)
        · exact h1 (Or.inr hn)
      · intro _
        rfl

/-- C4 witness: an upper-case answer with surrounding whitespace is
accepted. -/
theorem claim_C4_witness : ask_opt_in 0 " YeS " = DialogResult.ACCEPTED :=
  (claim_C4_answer_normalization 0 " YeS ").1.mpr (Or.inr (by decide))

/-- C2: with a resolvable storage location and no stored consent file,
`check` returns `DECLINED` when the process is not the session/group
leader, otherwise `DECLINED` when stdin is not a terminal or a notebook
kernel is detected, and otherwise `NO_FILE`; the branch structure leaves
no other result. -/
theorem claim_C2_check_no_file (e : Env) (h : Resolvable e) (hfile : e.file = none) :
    (check_main_process e = false → check e = Except.ok (ISIPCheckResult.DECLINED, false)) ∧
    (check_main_process e = true → (e.stdin_isatty = false ∨ e.in_notebook = true) →
      check e = Except.ok (ISIPCheckResult.DECLINED, false)) ∧
    (check_main_process e = true → e.stdin_isatty = true → e.in_notebook = false →
      check e = Except.ok (ISIPCheckResult.NO_FILE, false)) := by
  obtain ⟨p, hp⟩ := resolvable_isip_file e h
  refine ⟨?_, ?_, ?_⟩
  · intro hm
    simp [check, hp, hfile, hm]
  · rintro hm (ht | hn)
    · simp [check, hp, hfile, hm, check_input_is_terminal, ht]
    · simp [check, hp, hfile, hm, check_input_is_terminal, check_run_in_notebook, hn]
  · intro hm ht hn
    simp [check, hp, hfile, hm, check_input_is_terminal, check_run_in_notebook, ht, hn]

/-- C2 witness: healthy interactive leader state with no stored file. -/
theorem claim_C2_witness :
    check envNoFile = Except.ok (ISIPCheckResult.NO_FILE, false) :=
  (claim_C2_check_no_file envNoFile ⟨by decide, rfl⟩ rfl).2.2 rfl rfl rfl

/-- C3: with a resolvable location and a readable stored file of content
`c`, `check` returns `ACCEPTED` exactly when the stripped first line is
`"1"`, `DECLINED` without a format warning exactly when it is `"0"`, and
`DECLINED` with the format warning for anything else (the empty file
included); no branch raises. -/
theorem claim_C3_check_content (e : Env) (c : String) (h : Resolvable e)
    (hfile : e.file = some c) (hr : e.file_r_access = true)
    (hnr : e.open_read_raises = false) :
    (check e = Except.ok (ISIPCheckResult.ACCEPTED, false) ↔ pyStrip (readline c) = "1") ∧
    (check e = Except.ok (ISIPCheckResult.DECLINED, false) ↔ pyStrip (readline c) = "0") ∧
    (pyStrip (readline c) ≠ "1" → pyStrip (readline c) ≠ "0" →
      check e = Except.ok (ISIPCheckResult.DECLINED, true)) := by
  obtain ⟨p, hp⟩ := resolvable_isip_file e h
  have hemp := isip_is_empty_some e c p hp hfile
  have hinfo := get_info_readable e c p hp hfile hr hnr
  by_cases hlen : c.length = 0
  · have hs : pyStrip (readline c) = "" := strip_readline_of_length_zero hlen
    have hb : (c.length == 0) = true := beq_iff_eq.mpr hlen
    have hchk : check e = Except.ok (ISIPCheckResult.DECLINED, true) := by
      simp [check, hp, hfile, hemp, hb]
    refine ⟨iff_of_false ?_ ?_, iff_of_false ?_ ?_, fun _ _ => hchk⟩
    · intro hx
      rw [hchk] at hx
      simp at hx
    · intro hx
      rw [hs] at hx
      exact absurd hx (by decide)
    · intro hx
      rw [hchk] at hx
      simp at hx
    · intro hx
      rw [hs] at hx
      exact absurd hx (by decide)
  · have hb : (c.length == 0) = false := beq_eq_false_iff_ne.mpr hlen
    by_cases h1 : pyStrip (readline c) = "1"
    · have hchk : check e = Except.ok (ISIPCheckResult.ACCEPTED, false) := by
        simp [check, hp, hfile, hemp, hb, hinfo, h1]
      refine ⟨iff_of_true hchk h1, iff_of_false ?_ ?_, fun hx _ => absurd h1 hx⟩
      · intro hx
        rw [hchk] at hx
        simp at hx
      · intro hx
        rw [h1] at hx
        exact absurd hx (by decide)
    · by_cases h0 : pyStrip (readline c) = "0"
      · have hchk : check e = Except.ok (ISIPCheckResult.DECLINED, false) := by
          simp [check, hp, hfile, hemp, hb, hinfo, h1, h0]
        refine ⟨iff_of_false ?_ ?_, iff_of_true hchk h0, fun _ hx => absurd h0 hx⟩
        · intro hx
          rw [hchk] at hx
          simp at hx
        · intro hx
          exact h1 hx
      · have hchk : check e = Except.ok (ISIPCheckResult.DECLINED, true) := by
          simp [check, hp, hfile, hemp, hb, hinfo, h1, h0]
        refine ⟨iff_of_false ?_ h1, iff_of_false ?_ h0, fun _ _ => hchk⟩
        · intro hx
          rw [hchk] at hx
          simp at hx
        · intro hx
          rw [hchk] at hx
          simp at hx

/-- C3 witness: a stored `"1"` is accepted. -/
theorem claim_C3_witness :
    check defaultEnv = Except.ok (ISIPCheckResult.ACCEPTED, false) :=
  (claim_C3_check_content defaultEnv "1" ⟨by decide, rfl⟩ rfl rfl rfl).1.mpr (by decide)

/-- C10: when the stored file exists and is non-empty but is not readable
(no read permission or a raising read), `get_info_from_isip` reports
failure with the empty-dict sentinel, and `check` ignores that failure
flag, falls through the content comparisons, and returns `DECLINED` with
the format warning — it neither raises nor retries. -/
theorem claim_C10_read_failure (e : Env) (c : String) (h : Resolvable e)
    (hfile : e.file = some c) (hlen : c.length ≠ 0)
    (hfail : e.file_r_access = false ∨ e.open_read_raises = true) :
    get_info_from_isip e = Except.ok (false, none) ∧
    check e = Except.ok (ISIPCheckResult.DECLINED, true) := by
  obtain ⟨p, hp⟩ := resolvable_isip_file e h
  have hinfo := get_info_unreadable e p hp hfail
  have hemp := isip_is_empty_some e c p hp hfile
  have hb : (c.length == 0) = false := beq_eq_false_iff_ne.mpr hlen
  refine ⟨hinfo, ?_⟩
  simp [check, hp, hfile, hemp, hb, hinfo]

/-- C10 witness: a stored `"1"` without read permission yields `DECLINED`
plus the warning. -/
theorem claim_C10_witness :
    get_info_from_isip { defaultEnv with file_r_access := false } =
      Except.ok (false, none) ∧
    check { defaultEnv with file_r_access := false } =
      Except.ok (ISIPCheckResult.DECLINED, true) :=
  claim_C10_read_failure { defaultEnv with file_r_access := false } "1"
    ⟨by decide, rfl⟩ rfl (by decide) (Or.inl rfl)

/-- C8 counterexample: in a healthy state whose ISIP file is absent,
`isip_is_empty` does not return a boolean: the `os.stat` exception
propagates, refuting the claim that a missing file yields a boolean. -/
theorem claim_C8_counterexample :
    isip_is_empty envNoFile = Except.error "No such file or directory" := rfl

/-- C8 (amended): when the file exists, `isip_is_empty` returns `true`
exactly for zero size and `false` otherwise; when the file is missing the
`os.stat` exception propagates instead (see the counterexample). -/
theorem claim_C8_is_empty (e : Env) (c : String) (h : Resolvable e)
    (hfile : e.file = some c) :
    (isip_is_empty e = Except.ok true ↔ c.length = 0) ∧
    (isip_is_empty e = Except.ok false ↔ c.length ≠ 0) := by
  obtain ⟨p, hp⟩ := resolvable_isip_file e h
  have hemp := isip_is_empty_some e c p hp hfile
  rw [hemp]
  constructor
  · simp
  · simp

/-- C8 witness: a stored single byte is non-empty. -/
theorem claim_C8_witness :
    (isip_is_empty defaultEnv = Except.ok true ↔ ("1" : String).length = 0) ∧
    (isip_is_empty defaultEnv = Except.ok false ↔ ("1" : String).length ≠ 0) :=
  claim_C8_is_empty defaultEnv "1" ⟨by decide, rfl⟩ rfl

/-- C5: with a resolvable location, `update_result` never raises; when it
returns `true` the file content is exactly the single byte `"1"` for
`ACCEPTED` and `"0"` for any other outcome (a truncating overwrite); and it
returns `true` exactly when the file existed or was freshly created, write
permission holds, and the write does not raise — every failure surfaces as
`false`, not an exception. -/
theorem claim_C5_update_result (e : Env) (r : ISIPCheckResult) (h : Resolvable e) :
    ∃ (b : Bool) (e' : Env), update_result e r = Except.ok (b, e') ∧
      (b = true → e'.file = some (if r = ISIPCheckResult.ACCEPTED then "1" else "0")) ∧
      (b = true ↔
        ((e.file.isSome = true ∨ ∃ e1, create_new_isip_file e = Except.ok (true, e1)) ∧
          e.file_w_access = true ∧ e.open_write_raises = false)) := by
  obtain ⟨b, e', h1, -, h3, h4⟩ := update_result_spec e r h
  exact ⟨b, e', h1, h4, h3⟩

/-- C5 witness: writing `ACCEPTED` over an existing readable file
succeeds. -/
theorem claim_C5_witness :
    ∃ (b : Bool) (e' : Env),
      update_result defaultEnv ISIPCheckResult.ACCEPTED = Except.ok (b, e') ∧
      (b = true → e'.file = some (if ISIPCheckResult.ACCEPTED = ISIPCheckResult.ACCEPTED
        then "1" else "0")) ∧
      (b = true ↔
        ((defaultEnv.file.isSome = true ∨
          ∃ e1, create_new_isip_file defaultEnv = Except.ok (true, e1)) ∧
          defaultEnv.file_w_access = true ∧ defaultEnv.open_write_raises = false)) :=
  claim_C5_update_result defaultEnv ISIPCheckResult.ACCEPTED ⟨by decide, rfl⟩

/-- C6: a successful `update_result` followed by a read: with read access
intact, `get_info_from_isip` reports success with exactly the byte that
corresponds to the outcome, and `check` returns the matching result with
no format warning. -/
theorem claim_C6_round_trip (e e' : Env) (r : ISIPCheckResult)
    (hupd : update_result e r = Except.ok (true, e'))
    (hr : e'.file_r_access = true) (hnr : e'.open_read_raises = false) :
    get_info_from_isip e' =
      Except.ok (true, some (if r = ISIPCheckResult.ACCEPTED then "1" else "0")) ∧
    check e' = Except.ok
      ((if r = ISIPCheckResult.ACCEPTED then ISIPCheckResult.ACCEPTED
        else ISIPCheckResult.DECLINED), false) := by
  have hres : Resolvable e := by
    by_contra hn
    unfold update_result at hupd
    rw [not_resolvable_isip_file e hn] at hupd
    exact Except.noConfusion hupd
  obtain ⟨b, e'', heq, hsc, hiff, hcontent⟩ := update_result_spec e r hres
  rw [hupd] at heq
  rw [Except.ok.injEq, Prod.mk.injEq] at heq
  obtain ⟨hb, he⟩ := heq
  subst he
  have hfile' : e'.file = some (if r = ISIPCheckResult.ACCEPTED then "1" else "0") :=
    hcontent hb.symm
  have hres' : Resolvable e' := (sameConfig_resolvable hsc).mp hres
  obtain ⟨p', hp'⟩ := resolvable_isip_file e' hres'
  cases r with
  | ACCEPTED =>
    have hfA : e'.file = some "1" := by simpa using hfile'
    have hinfo := get_info_readable e' "1" p' hp' hfA hr hnr
    have hempA : isip_is_empty e' = Except.ok false := by
      rw [isip_is_empty_some e' "1" p' hp' hfA]
      rfl
    have hs1 : pyStrip (readline "1") = "1" := by decide
    constructor
    · rw [hinfo, hs1]
      rfl
    · simp [check, hp', hfA, hempA, hinfo, hs1]
  | DECLINED =>
    have hfD : e'.file = some "0" := by simpa using hfile'
    have hinfo := get_info_readable e' "0" p' hp' hfD hr hnr
    have hempD : isip_is_empty e' = Except.ok false := by
      rw [isip_is_empty_some e' "0" p' hp' hfD]
      rfl
    have hs0 : pyStrip (readline "0") = "0" := by decide
    constructor
    · rw [hinfo, hs0]
      rfl
    · simp [check, hp', hfD, hempD, hinfo, hs0]
  | NO_FILE =>
    have hfD : e'.file = some "0" := by simpa using hfile'
    have hinfo := get_info_readable e' "0" p' hp' hfD hr hnr
    have hempD : isip_is_empty e' = Except.ok false := by
      rw [isip_is_empty_some e' "0" p' hp' hfD]
      rfl
    have hs0 : pyStrip (readline "0") = "0" := by decide
    constructor
    · rw [hinfo, hs0]
      rfl
    · simp [check, hp', hfD, hempD, hinfo, hs0]

/-- C6 witness: writing `DECLINED` then reading back yields `"0"` and a
`DECLINED` check. -/
theorem claim_C6_witness :
    get_info_from_isip { defaultEnv with file := some "0" } =
      Except.ok (true, some "0") ∧
    check { defaultEnv with file := some "0" } =
      Except.ok (ISIPCheckResult.DECLINED, false) :=
  claim_C6_round_trip defaultEnv { defaultEnv with file := some "0" }
    ISIPCheckResult.DECLINED rfl rfl rfl

/-- C7 counterexample: on an unrecognized platform the location-resolution
exception escapes from `create_new_isip_file` — it does not return a
boolean, refuting `no exception escapes` as stated. -/
theorem claim_C7_counterexample :
    create_new_isip_file envOther =
      Except.error "Failed to find location of the ISIP file." := rfl

/-- C7 (amended): `create_new_isip_file` returns a boolean, with no
escaping exception, exactly when the storage location resolves (recognized
platform and existing base directory) — otherwise the location-resolution
exception propagates — and on the resolvable domain every I/O failure
yields the return value `false`: the result is `true` exactly when the
directory step succeeds and the file-creating `open` does not raise. -/
theorem claim_C7_create_file (e : Env) :
    ((∃ (b : Bool) (e1 : Env), create_new_isip_file e = Except.ok (b, e1)) ↔
      Resolvable e) ∧
    (Resolvable e →
      ∃ (b : Bool) (e1 : Env), create_new_isip_file e = Except.ok (b, e1) ∧
        (b = true ↔
          ((∃ e2, create_or_check_isip_dir e = Except.ok (true, e2)) ∧
            e.open_write_raises = false))) := by
  constructor
  · constructor
    · rintro ⟨b, e1, hok⟩
      by_contra hn
      unfold create_new_isip_file create_or_check_isip_dir at hok
      rw [not_resolvable_base e hn] at hok
      exact Except.noConfusion hok
    · intro h
      obtain ⟨b, e1, hok, -, -⟩ := create_new_spec e h
      exact ⟨b, e1, hok⟩
  · intro h
    obtain ⟨b0, e', hc, hsc, hf⟩ := create_or_check_spec e h
    cases b0 with
    | false =>
      refine ⟨false, e', by simp [create_new_isip_file, hc],
        iff_of_false (by simp) ?_⟩
      rintro ⟨⟨e2, he2⟩, -⟩
      rw [hc] at he2
      simp at he2
    | true =>
      obtain ⟨p', hp'⟩ := resolvable_isip_file e' ((sameConfig_resolvable hsc).mp h)
      cases hw : e'.open_write_raises with
      | true =>
        refine ⟨false, e', by simp [create_new_isip_file, hc, hp', hw],
          iff_of_false (by simp) ?_⟩
        rintro ⟨-, hwr⟩
        rw [hsc.2.2.2.2.1] at hwr
        rw [hwr] at hw
        exact Bool.noConfusion hw
      | false =>
        refine ⟨true, { e' with file := some "" },
          by simp [create_new_isip_file, hc, hp', hw], ?_⟩
        refine iff_of_true rfl ⟨⟨e', hc⟩, ?_⟩
        rw [hsc.2.2.2.2.1]
        exact hw

/-- C7 witness: on a healthy Linux state the file creation returns a
boolean, and the true/false characterization is exercised concretely. -/
theorem claim_C7_witness :
    ∃ (b : Bool) (e1 : Env), create_new_isip_file defaultEnv = Except.ok (b, e1) ∧
      (b = true ↔
        ((∃ e2, create_or_check_isip_dir defaultEnv = Except.ok (true, e2)) ∧
          defaultEnv.open_write_raises = false)) :=
  (claim_C7_create_file defaultEnv).2 ⟨by decide, rfl⟩

/-- C9: the session-leader gate is always `true` on Windows; on every
other platform it is `true` exactly when no process-table query raised,
the pid equals the process-group id, and the parent's session equals the
current session — any query failure yields `false`. -/
theorem claim_C9_main_process (e : Env) :
    (e.platform = Platform.Windows → check_main_process e = true) ∧
    (e.platform ≠ Platform.Windows →
      (check_main_process e = true ↔
        (e.proc_query_raises = false ∧ e.pid = e.pgid ∧ e.ppid_sid = e.sid))) := by
  constructor
  · intro hw
    simp [check_main_process, hw]
  · intro hw
    simp only [check_main_process, if_neg hw]
    cases hq : e.proc_query_raises <;>
      by_cases hp : e.pid = e.pgid <;>
      by_cases hs : e.ppid_sid = e.sid <;>
      simp [hq, hp, hs, bne]

/-- C9 witness: the gate returns `true` on a Windows state. -/
theorem claim_C9_witness :
    check_main_process { defaultEnv with platform := Platform.Windows } = true :=
  (claim_C9_main_process { defaultEnv with platform := Platform.Windows }).1 rfl

end OptInChecker
